import Mathlib

/-!
Verification of the trip-tracker route-construction workflow.

The definitions below are a shallow embedding of the repository code:
coordinates are exact rationals, the Mongo-backed collections are Lean
lists, asynchronous collaborators (the Google directions service, the
REST store) are explicit function or value parameters, and every
handler from the source is translated into a pure function over that
state.  Sources embedded:

* frontend/src/components/Map.tsx: the route builder UI handlers
  (handleFinishRoute, saveRoute, handleStartNewRoute,
  handleRouteColorChange, handlePlaceSelection, updateRouteState).
* backend/src/routes/map.ts: the Express handlers for POST /routes,
  POST /markers, PUT /routes/:id and PUT /route-state.
* backend/src/models/RouteState.ts: the singleton pre-save hook.
-/

namespace TripTracker

/-- A latitude/longitude pair, as `google.maps.LatLngLiteral`.  Degrees are
modelled as exact rationals. -/
structure LatLng where
  lat : ℚ
  lng : ℚ
deriving DecidableEq, Repr

/-- The frontend `SavedRoute` record (frontend/src/types/map.ts): the
identifier is optional (`_id?: string`), absent until the store assigns
one.  The same shape serves as the body of a `POST /routes` request. -/
structure SavedRoute where
  _id : Option String
  start : LatLng
  «end» : LatLng
  waypoints : List LatLng
  overviewPath : List LatLng
  distance : String
  duration : String
  color : String
deriving DecidableEq, Repr

/-- A persisted route document (backend/src/models/Route.ts): the store
has assigned the identifier. -/
structure RouteDoc where
  _id : String
  start : LatLng
  «end» : LatLng
  waypoints : List LatLng
  overviewPath : List LatLng
  distance : String
  duration : String
  color : String
deriving DecidableEq, Repr

/-- The body of a `POST /markers` request: the frontend only ever sends
`{ position }`, but a caller could include a placeholder `_id`. -/
structure MarkerBody where
  _id : Option String
  position : LatLng
deriving DecidableEq, Repr

/-- A persisted marker document (backend/src/models/Marker.ts). -/
structure MarkerDoc where
  _id : String
  position : LatLng
deriving DecidableEq, Repr

/-- The workflow step tracked by the session-state record
(backend/src/models/RouteState.ts `routeStep` enum). -/
inductive RouteStep where
  | start
  | waypoint
  | «end»
  | color
deriving DecidableEq, Repr

/-- The singleton session-state document (backend/src/models/RouteState.ts):
current step, tentative start location, tentative color (schema default
`null`, modelled as `none`). -/
structure RouteState where
  routeStep : RouteStep
  startLocation : Option LatLng
  color : Option String
deriving DecidableEq, Repr

/-! ## Backend store handlers (backend/src/routes/map.ts) -/

/-- `POST /routes`: the handler destructures `const { _id, ...routeData } =
req.body` — discarding any client-supplied `_id` — and persists `routeData`
with the store-assigned identifier `storeId`. -/
def postRoute (body : SavedRoute) (storeId : String) : RouteDoc :=
  { _id := storeId
    start := body.start
    «end» := body.«end»
    waypoints := body.waypoints
    overviewPath := body.overviewPath
    distance := body.distance
    duration := body.duration
    color := body.color }

/-- `POST /markers`: the handler passes `req.body` to `new Marker(req.body)`
without stripping `_id`, so mongoose takes a supplied `_id` from the body
and only falls back to the store-assigned identifier when the body has
none. -/
def postMarker (body : MarkerBody) (storeId : String) : MarkerDoc :=
  { _id := body._id.getD storeId
    position := body.position }

/-- The `$set` payload of `PUT /routes/:id`: `findByIdAndUpdate(id,
{ $set: routeData })` overwrites exactly the fields present in the request
body, so each field is optional. -/
structure RouteUpdateBody where
  start : Option LatLng
  «end» : Option LatLng
  waypoints : Option (List LatLng)
  overviewPath : Option (List LatLng)
  distance : Option String
  duration : Option String
  color : Option String
deriving DecidableEq, Repr

/-- Mongo `$set` semantics of `PUT /routes/:id` on a single document:
fields present in the body replace the stored ones, absent fields and the
identifier are untouched. -/
def applySet (doc : RouteDoc) (u : RouteUpdateBody) : RouteDoc :=
  { _id := doc._id
    start := u.start.getD doc.start
    «end» := u.«end».getD doc.«end»
    waypoints := u.waypoints.getD doc.waypoints
    overviewPath := u.overviewPath.getD doc.overviewPath
    distance := u.distance.getD doc.distance
    duration := u.duration.getD doc.duration
    color := u.color.getD doc.color }

/-- The body the frontend sends for a recolor: `handleRouteColorChange`
issues `PUT /routes/:id` with `JSON.stringify({ color })` — no geometry is
resupplied. -/
def colorOnlyBody (color : String) : RouteUpdateBody :=
  { start := none
    «end» := none
    waypoints := none
    overviewPath := none
    distance := none
    duration := none
    color := some color }

/-! ## Session-state store (RouteState.ts and the route-state handlers) -/

/-- The `pre` save hook of RouteStateSchema plus the write itself: saving a
new document while `countDocuments() > 0` throws `Only one route state
document can exist`; otherwise a new document is appended, and a non-new
save overwrites the (first) existing document.  An error leaves the
collection unchanged. -/
def routeStateSave (store : List RouteState) (doc : RouteState) (isNew : Bool) :
    Except String (List RouteState) :=
  if decide (0 < store.length) && isNew then
    Except.error ("Only one route state document can exist")
  else if isNew then
    Except.ok (store ++ [doc])
  else
    Except.ok (match store with
      | [] => [doc]
      | _ :: rest => doc :: rest)

/-- The body of a `PUT /route-state` request.  The frontend variant in
Map.tsx sends either `{ routeStep, color }` or `{ routeStep,
startLocation }`, so both optional fields appear here; the backend handler
reads only `routeStep` and `startLocation` from it. -/
structure RouteStatePutBody where
  routeStep : RouteStep
  startLocation : Option LatLng
  color : Option String
deriving DecidableEq, Repr

/-- `PUT /route-state` (backend/src/routes/map.ts): destructures only
`{ routeStep, startLocation }` from the body; with no existing document it
creates one (color takes the schema default `null`), otherwise it
overwrites `routeStep` and `startLocation` on the document found by
`findOne()` and saves it.  The body color field is never read. -/
def putRouteState (store : List RouteState) (body : RouteStatePutBody) :
    Except String (List RouteState) :=
  match store with
  | [] =>
      routeStateSave store
        { routeStep := body.routeStep, startLocation := body.startLocation, color := none }
        true
  | st :: rest =>
      routeStateSave (st :: rest)
        { st with routeStep := body.routeStep, startLocation := body.startLocation }
        false

/-- The frontend `updateRouteState` body builder (Map.tsx): a string
argument is sent as `{ routeStep, color }`, a location as `{ routeStep,
startLocation }`, and `null` as `{ routeStep, startLocation: null }`. -/
inductive RouteStateData where
  | loc (p : LatLng)
  | colorStr (c : String)
  | null
deriving DecidableEq, Repr

/-- Builds the JSON body `{ routeStep, ...(typeof data === 'string' ?
{ color: data } : { startLocation: data }) }` sent by `updateRouteState`. -/
def updateRouteStateBody (routeStep : RouteStep) (data : RouteStateData) :
    RouteStatePutBody :=
  match data with
  | RouteStateData.colorStr c =>
      { routeStep := routeStep, startLocation := none, color := some c }
  | RouteStateData.loc p =>
      { routeStep := routeStep, startLocation := some p, color := none }
  | RouteStateData.null =>
      { routeStep := routeStep, startLocation := none, color := none }

/-! ## Directions collaborator (external, Google DirectionsService) -/

/-- The provider status codes of `google.maps.DirectionsStatus` that the
callback in `handleFinishRoute` can receive. -/
inductive DirectionsStatus where
  | OK
  | ZERO_RESULTS
  | REQUEST_DENIED
  | OVER_QUERY_LIMIT
  | INVALID_REQUEST
  | MAX_WAYPOINTS_EXCEEDED
  | NOT_FOUND
  | UNKNOWN_ERROR
deriving DecidableEq, Repr

/-- The directions request built by `handleFinishRoute`: origin,
destination and the ordered intermediate stopover waypoints (travel mode
is always DRIVING). -/
structure DirectionsRequest where
  origin : LatLng
  destination : LatLng
  waypoints : List LatLng
deriving DecidableEq, Repr

/-- The part of a successful directions response that the builder reads:
`routes[0].overview_path` and `legs[0].distance?.text` /
`legs[0].duration?.text` (the latter two may be absent, in which case the
code substitutes an empty string). -/
structure DirectionsResult where
  overview_path : List LatLng
  distanceText : Option String
  durationText : Option String
deriving DecidableEq, Repr

/-- The promise wrapper around `directionsService.route` in
`handleFinishRoute`: the callback resolves only when the status is OK and
a result object is present, and otherwise rejects carrying the provider
status (embedded in the message `Directions request failed: status`). -/
def routePromise (response : DirectionsStatus × Option DirectionsResult) :
    Except DirectionsStatus DirectionsResult :=
  match response with
  | (DirectionsStatus.OK, some result) => Except.ok result
  | (status, _) => Except.error status

/-! ## The route builder (Map.tsx) -/

/-- The tentative points of the in-progress build (`routePoints` state in
Map.tsx). -/
structure RoutePoints where
  start : Option LatLng
  «end» : Option LatLng
  waypoints : List LatLng
deriving DecidableEq, Repr

/-- The possible outcomes of one run of `handleFinishRoute`, in the order
the code can reach them.  Only the `saved` outcome hands a route record to
the store, and only outcomes from `directionsFailed` on carry out a
directions request at all. -/
inductive FinishOutcome where
  | fetchFailed
  | startMissing
  | waypointMissing
  | directionsFailed (status : DirectionsStatus)
  | saved (route : SavedRoute)
deriving DecidableEq, Repr

/-- The `routeError` message `handleFinishRoute` surfaces for each
outcome: the two local validation failures get their own messages, and
every rejected directions promise lands in the outer catch block with the
single message `Error calculating route. Please try again.` — the provider
status never reaches the user-visible string. -/
def finishOutcomeError : FinishOutcome → Option String
  | FinishOutcome.fetchFailed => none
  | FinishOutcome.startMissing => some ("Please set a start location first")
  | FinishOutcome.waypointMissing => some ("Please add at least one waypoint")
  | FinishOutcome.directionsFailed _ => some ("Error calculating route. Please try again.")
  | FinishOutcome.saved _ => none

/-- `handleFinishRoute` (Map.tsx): fetch the session state (`none` models a
failed fetch); reject when it has no start location; reject when the local
waypoint list is empty; otherwise request directions from the stored start
to the last waypoint via all earlier waypoints, and on success build the
route record `{ start, end: lastWaypoint, waypoints: slice(0,-1),
overviewPath, distance, duration, color: state.color || selectedColor }`
that is handed to `mapApi.saveRoute`.  The directions collaborator is the
explicit parameter `dir`. -/
def handleFinishRoute (state : Option RouteState) (pts : RoutePoints)
    (selectedColor : String)
    (dir : DirectionsRequest → DirectionsStatus × Option DirectionsResult) :
    FinishOutcome :=
  match state with
  | none => FinishOutcome.fetchFailed
  | some st =>
    match st.startLocation with
    | none => FinishOutcome.startMissing
    | some startLoc =>
      match pts.waypoints.getLast? with
      | none => FinishOutcome.waypointMissing
      | some lastWaypoint =>
        let routeConfig : DirectionsRequest :=
          { origin := startLoc
            destination := lastWaypoint
            waypoints := pts.waypoints.dropLast }
        match routePromise (dir routeConfig) with
        | Except.error status => FinishOutcome.directionsFailed status
        | Except.ok result =>
          let routeColor := st.color.getD selectedColor
          FinishOutcome.saved
            { _id := none
              start := startLoc
              «end» := lastWaypoint
              waypoints := pts.waypoints.dropLast
              overviewPath := result.overview_path
              distance := result.distanceText.getD ("")
              duration := result.durationText.getD ("")
              color := routeColor }

/-- The state a build works on: the session-state record the frontend
reads back via `fetchRouteState`, plus the local `routePoints`. -/
structure BuildState where
  routeState : RouteState
  routePoints : RoutePoints
deriving DecidableEq, Repr

/-- One point selection during a build, as in `handlePlaceSelection`
(Map.tsx, route branch): with no stored start location the point becomes
the start (persisted via `updateRouteState('start', location)`), otherwise
it is appended to the waypoint list (and mirrored into `end`). -/
def handlePlaceSelection (b : BuildState) (location : LatLng) : BuildState :=
  if b.routeState.startLocation = none then
    { routeState :=
        { b.routeState with routeStep := RouteStep.start, startLocation := some location }
      routePoints :=
        { b.routePoints with start := some location, «end» := none } }
  else
    { routeState := b.routeState
      routePoints :=
        { b.routePoints with
            «end» := some location
            waypoints := b.routePoints.waypoints ++ [location] } }

/-- A whole build: starting from a session record and empty local points,
the user selects the given points in order. -/
def runBuild (rs0 : RouteState) (chosen : List LatLng) : BuildState :=
  chosen.foldl handlePlaceSelection
    { routeState := rs0
      routePoints := { start := none, «end» := none, waypoints := [] } }

/-! ## Client-side route saving with duplicate detection (Map.tsx saveRoute) -/

/-- The `{ _id, ...routeData }` destructuring at the top of the local
`saveRoute`: the client-side placeholder identifier is dropped before
anything else happens. -/
def stripId (route : SavedRoute) : SavedRoute :=
  { route with _id := none }

/-- The duplicate check of `saveRoute`: some already loaded route has
start and end coordinates within `0.000001` of the candidate in all four
components. -/
def isDuplicate (savedRoutes : List SavedRoute) (routeData : SavedRoute) : Bool :=
  savedRoutes.any fun existingRoute =>
    decide (|existingRoute.start.lat - routeData.start.lat| < 1 / 1000000) &&
    decide (|existingRoute.start.lng - routeData.start.lng| < 1 / 1000000) &&
    decide (|existingRoute.«end».lat - routeData.«end».lat| < 1 / 1000000) &&
    decide (|existingRoute.«end».lng - routeData.«end».lng| < 1 / 1000000)

/-- How a persisted route document comes back to the client
(`response.data`), carrying the store-assigned identifier. -/
def toSavedRoute (doc : RouteDoc) : SavedRoute :=
  { _id := some doc._id
    start := doc.start
    «end» := doc.«end»
    waypoints := doc.waypoints
    overviewPath := doc.overviewPath
    distance := doc.distance
    duration := doc.duration
    color := doc.color }

/-- The observable result of the local `saveRoute`: the in-memory route
list, the persisted collection, and the transient messages. -/
structure SaveRouteResult where
  savedRoutes : List SavedRoute
  persisted : List RouteDoc
  routeError : Option String
  routeSuccess : Option String
deriving DecidableEq, Repr

/-- The duplicate-checking `saveRoute` (Map.tsx): strip `_id`, reject as
`A similar route already exists` when `isDuplicate` fires — before any
request reaches the store — and otherwise POST the data (the store assigns
`storeId`) and append the response to the in-memory list. -/
def saveRoute (savedRoutes : List SavedRoute) (persisted : List RouteDoc)
    (route : SavedRoute) (storeId : String) : SaveRouteResult :=
  let routeData := stripId route
  if isDuplicate savedRoutes routeData then
    { savedRoutes := savedRoutes
      persisted := persisted
      routeError := some ("A similar route already exists")
      routeSuccess := none }
  else
    let doc := postRoute routeData storeId
    { savedRoutes := savedRoutes ++ [toSavedRoute doc]
      persisted := persisted ++ [doc]
      routeError := none
      routeSuccess := some ("Route saved successfully!") }

/-! ## Recoloring a persisted route (Map.tsx handleRouteColorChange) -/

/-- The slice of component state `handleRouteColorChange` touches. -/
structure ColorChangeResult where
  savedRoutes : List SavedRoute
  selectedRoute : Option SavedRoute
  routeError : Option String
deriving DecidableEq, Repr

/-- `handleRouteColorChange` (Map.tsx): with no selected route, nothing
happens.  Otherwise the local list and selected copy are optimistically
recolored, then `PUT /routes/:id` runs (its outcome is the `server`
parameter).  On success, the server document replaces the local copies; on
failure, both the list entry and the selected copy are reverted to the
pre-edit `selectedRoute` closure value and an error message is set. -/
def handleRouteColorChange (savedRoutes : List SavedRoute)
    (selectedRoute : Option SavedRoute) (color : String)
    (server : Except Unit SavedRoute) : ColorChangeResult :=
  match selectedRoute with
  | none =>
      { savedRoutes := savedRoutes, selectedRoute := none, routeError := none }
  | some sel =>
    let updatedRoute := { sel with color := color }
    let optimistic := savedRoutes.map fun route =>
      if route._id = sel._id then updatedRoute else route
    match server with
    | Except.ok updatedRouteData =>
        { savedRoutes := optimistic.map fun route =>
            if route._id = sel._id then updatedRouteData else route
          selectedRoute := some updatedRouteData
          routeError := none }
    | Except.error _ =>
        { savedRoutes := optimistic.map fun route =>
            if route._id = sel._id then sel else route
          selectedRoute := some sel
          routeError := some ("Failed to update route color") }

/-! ## Starting and canceling a build (Map.tsx handleStartNewRoute) -/

/-- The slice of component state `handleStartNewRoute` reads or writes. -/
structure MapUIState where
  isAddingRoute : Bool
  showColorPalette : Bool
  directions : Option DirectionsResult
  searchQuery : String
  routeError : Option String
  routeSuccess : Option String
  selectedColor : String
  routePoints : RoutePoints
deriving DecidableEq, Repr

/-- `handleStartNewRoute` (Map.tsx).  With a build in progress this is the
explicit cancel: it clears the adding flag, directions preview, search
text, messages and palette, and resets the session record via
`updateRouteState('waypoint', null)` — but it never touches `routePoints`.
Otherwise it starts a build: sets the flags, adopts a stored color if one
exists, and resets the session record via `updateRouteState('start',
null)` — again leaving `routePoints` as they were.  The second component
is the session store after the PUT. -/
def handleStartNewRoute (s : MapUIState) (store : List RouteState) :
    MapUIState × Except String (List RouteState) :=
  if s.isAddingRoute then
    ({ s with
        isAddingRoute := false
        directions := none
        searchQuery := ""
        routeError := none
        routeSuccess := none
        showColorPalette := false },
     putRouteState store (updateRouteStateBody RouteStep.waypoint RouteStateData.null))
  else
    ({ s with
        isAddingRoute := true
        showColorPalette := true
        selectedColor := ((store.head?.bind RouteState.color).getD s.selectedColor)
        directions := none
        routeError := none
        routeSuccess := none
        searchQuery := "" },
     putRouteState store (updateRouteStateBody RouteStep.start RouteStateData.null))

/-! ## Sample values used by witnesses -/

/-- Sample point, the start of the worked example in the spec. -/
def pA : LatLng := { lat := 40, lng := -82 }

/-- Sample intermediate point (40.5, -82.5). -/
def pB : LatLng := { lat := 81 / 2, lng := -165 / 2 }

/-- Sample end point. -/
def pC : LatLng := { lat := 41, lng := -83 }

/-- A concrete already-persisted route, as the frontend holds it. -/
def sampleRoute : SavedRoute :=
  { _id := some ("route-1")
    start := pA
    «end» := pC
    waypoints := [pB]
    overviewPath := [pA, pB, pC]
    distance := "100 km"
    duration := "2 hours"
    color := "#0000FF" }

/-- A concrete session-state document with a start location set. -/
def sampleState : RouteState :=
  { routeStep := RouteStep.waypoint
    startLocation := some pA
    color := none }

/-- A concrete successful directions response. -/
def sampleResult : DirectionsResult :=
  { overview_path := [pA, pB, pC]
    distanceText := some ("100 km")
    durationText := some ("2 hours") }

/-! ## Claim theorems -/

/-- C6: a color-only update through `PUT /routes/:id` changes only the
`color` field of the stored route document: `overviewPath`, `distance`,
`duration`, `start`, `end`, `waypoints` and the identifier are unchanged,
and the request body the frontend sends for it (`{ color }`) carries no
geometry at all. -/
theorem color_update_changes_only_color (doc : RouteDoc) (c : String) :
    (applySet doc (colorOnlyBody c)).color = c ∧
    (applySet doc (colorOnlyBody c)).overviewPath = doc.overviewPath ∧
    (applySet doc (colorOnlyBody c)).distance = doc.distance ∧
    (applySet doc (colorOnlyBody c)).duration = doc.duration ∧
    (applySet doc (colorOnlyBody c)).start = doc.start ∧
    (applySet doc (colorOnlyBody c)).«end» = doc.«end» ∧
    (applySet doc (colorOnlyBody c)).waypoints = doc.waypoints ∧
    (applySet doc (colorOnlyBody c))._id = doc._id ∧
    (colorOnlyBody c).start = none ∧
    (colorOnlyBody c).«end» = none ∧
    (colorOnlyBody c).waypoints = none ∧
    (colorOnlyBody c).overviewPath = none := by
  simp [applySet, colorOnlyBody]

/-- C9 (amended): `POST /routes` discards a client-side placeholder `_id`
and persists the remaining fields unchanged under the store-assigned
identifier; `POST /markers` does not strip `_id` — the body is passed
through, so the store-assigned identifier is only used when the body
carries none. -/
theorem create_id_handling (body : SavedRoute) (mb : MarkerBody) (storeId : String) :
    (postRoute body storeId)._id = storeId ∧
    (postRoute body storeId).start = body.start ∧
    (postRoute body storeId).«end» = body.«end» ∧
    (postRoute body storeId).waypoints = body.waypoints ∧
    (postRoute body storeId).overviewPath = body.overviewPath ∧
    (postRoute body storeId).distance = body.distance ∧
    (postRoute body storeId).duration = body.duration ∧
    (postRoute body storeId).color = body.color ∧
    (postMarker mb storeId)._id = mb._id.getD storeId ∧
    (postMarker mb storeId).position = mb.position := by
  simp [postRoute, postMarker]

/-- C9 counterexample: a marker create whose body carries the placeholder
identifier `1734567890123` produces a document that still carries that
placeholder, not the store-assigned identifier — the marker handler never
discards the supplied `_id`. -/
theorem marker_create_keeps_placeholder_id :
    postMarker { _id := some ("1734567890123"), position := { lat := 40, lng := -82 } }
        ("server-assigned-id")
      = { _id := "1734567890123", position := { lat := 40, lng := -82 } } ∧
    ("1734567890123" : String) ≠ "server-assigned-id" := by
  exact ⟨rfl, by decide⟩

/-- C10: `PUT /route-state` reads only `routeStep` and `startLocation`
from the body: the stored record takes the body startLocation verbatim
(so a color-only update, whose body has no startLocation, erases any saved
start point) and the stored color is never touched by this handler. -/
theorem routeState_put_reads_only_step_and_start (st : RouteState)
    (body : RouteStatePutBody) :
    (∃ st2, putRouteState [st] body = Except.ok [st2] ∧
      st2.routeStep = body.routeStep ∧
      st2.startLocation = body.startLocation ∧
      st2.color = st.color) ∧
    (∀ (step : RouteStep) (c : String),
      putRouteState [st] (updateRouteStateBody step (RouteStateData.colorStr c)) =
        Except.ok [{ st with routeStep := step, startLocation := none }]) := by
  constructor
  · refine ⟨{ st with routeStep := body.routeStep, startLocation := body.startLocation },
      ?_, rfl, rfl, rfl⟩
    simp [putRouteState, routeStateSave]
  · intro step c
    simp [putRouteState, routeStateSave, updateRouteStateBody]

/-- C3 (bug): canceling a build via `handleStartNewRoute` resets the
session-state record, yet the tentative local points survive both the
cancel and the start of the next build — with a start point (40, -82) and
one tentative waypoint (40.5, -82.5) in place, the waypoint list after
cancel-then-restart is still `[(40.5, -82.5)]`, not empty, contradicting
the discard-on-cancel property (and the handler log that claims to reset
all route state). -/
theorem cancel_leaves_tentative_points :
    let s0 : MapUIState :=
      { isAddingRoute := true
        showColorPalette := true
        directions := none
        searchQuery := ""
        routeError := none
        routeSuccess := none
        selectedColor := "#0000FF"
        routePoints := { start := some pA, «end» := none, waypoints := [pB] } }
    let store0 : List RouteState := [sampleState]
    let canceled := handleStartNewRoute s0 store0
    canceled.2 = Except.ok
        [{ routeStep := RouteStep.waypoint, startLocation := none, color := none }] ∧
    canceled.1.routePoints = s0.routePoints ∧
    (handleStartNewRoute canceled.1
        [{ routeStep := RouteStep.waypoint, startLocation := none, color := none }]
      ).1.routePoints.waypoints = [pB] ∧
    [pB] ≠ ([] : List LatLng) := by
  exact ⟨rfl, rfl, rfl, by decide⟩

/-- C7: finishing a build whose session state has a start location but
whose waypoint list is empty is rejected with the add-a-waypoint message,
and the outcome is the same for every directions collaborator — the
rejection happens before any directions request, and `waypointMissing` is
not the `saved` outcome, so no create reaches the store either. -/
theorem finish_without_waypoints_rejected (st : RouteState) (s : LatLng)
    (hs : st.startLocation = some s) (pts : RoutePoints)
    (hw : pts.waypoints = []) (selectedColor : String) :
    (∀ dir, handleFinishRoute (some st) pts selectedColor dir
      = FinishOutcome.waypointMissing) ∧
    finishOutcomeError FinishOutcome.waypointMissing
      = some ("Please add at least one waypoint") := by
  refine ⟨fun dir => ?_, rfl⟩
  simp [handleFinishRoute, hs, hw]

/-- C7 witness: the rejection at a concrete state with start (40, -82) set
and zero waypoints. -/
theorem finish_without_waypoints_rejected_witness :
    (∀ dir, handleFinishRoute (some sampleState)
        { start := some pA, «end» := none, waypoints := [] } ("#0000FF") dir
      = FinishOutcome.waypointMissing) ∧
    finishOutcomeError FinishOutcome.waypointMissing
      = some ("Please add at least one waypoint") :=
  finish_without_waypoints_rejected sampleState pA rfl
    { start := some pA, «end» := none, waypoints := [] } rfl ("#0000FF")

/-- C8 counterexample: two different provider failure classes
(ZERO_RESULTS and REQUEST_DENIED) surface the identical user-visible
message at the same build state, so no distinct message per class
exists. -/
theorem directions_failure_message_not_distinct :
    DirectionsStatus.ZERO_RESULTS ≠ DirectionsStatus.REQUEST_DENIED ∧
    finishOutcomeError (handleFinishRoute (some sampleState)
        { start := some pA, «end» := some pC, waypoints := [pC] } ("#0000FF")
        (fun _ => (DirectionsStatus.ZERO_RESULTS, none)))
      = some ("Error calculating route. Please try again.") ∧
    finishOutcomeError (handleFinishRoute (some sampleState)
        { start := some pA, «end» := some pC, waypoints := [pC] } ("#0000FF")
        (fun _ => (DirectionsStatus.REQUEST_DENIED, none)))
      = some ("Error calculating route. Please try again.") := by
  exact ⟨by decide, rfl, rfl⟩

/-- C8 (amended): every directions-collaborator failure during commit is
surfaced with the single generic message `Error calculating route. Please
try again.` regardless of the provider status code — the status only
reaches the internal rejection, never the user-visible string — and the
outcome records the failure without any retried request. -/
theorem directions_failure_message_uniform (st : RouteState) (s w : LatLng)
    (hs : st.startLocation = some s) (pts : RoutePoints)
    (hw : pts.waypoints.getLast? = some w) (selectedColor : String)
    (status : DirectionsStatus) (res : Option DirectionsResult)
    (dir : DirectionsRequest → DirectionsStatus × Option DirectionsResult)
    (hdir : ∀ req, dir req = (status, res))
    (hfail : routePromise (status, res) = Except.error status) :
    handleFinishRoute (some st) pts selectedColor dir
      = FinishOutcome.directionsFailed status ∧
    finishOutcomeError (FinishOutcome.directionsFailed status)
      = some ("Error calculating route. Please try again.") := by
  refine ⟨?_, rfl⟩
  simp [handleFinishRoute, hs, hw, hdir, hfail]

/-- C8 witness: a concrete ZERO_RESULTS failure at a concrete build
state. -/
theorem directions_failure_message_uniform_witness :
    handleFinishRoute (some sampleState)
        { start := some pA, «end» := some pC, waypoints := [pC] } ("#0000FF")
        (fun _ => (DirectionsStatus.ZERO_RESULTS, none))
      = FinishOutcome.directionsFailed DirectionsStatus.ZERO_RESULTS ∧
    finishOutcomeError (FinishOutcome.directionsFailed DirectionsStatus.ZERO_RESULTS)
      = some ("Error calculating route. Please try again.") :=
  directions_failure_message_uniform sampleState pA pC rfl
    { start := some pA, «end» := some pC, waypoints := [pC] } rfl ("#0000FF")
    DirectionsStatus.ZERO_RESULTS none _ (fun _ => rfl) rfl

/-- C2: a commit through the duplicate-checking `saveRoute` whose start and
end both lie within 1e-6 degrees (in each component) of some route already
in the in-memory list is rejected with the already-exists message, and
both the in-memory list and the persisted collection come out exactly as
they went in — no create reaches the store. -/
theorem duplicate_route_rejected (savedRoutes : List SavedRoute)
    (persisted : List RouteDoc) (route : SavedRoute)
    (hdup : ∃ ex ∈ savedRoutes,
      |ex.start.lat - route.start.lat| < 1 / 1000000 ∧
      |ex.start.lng - route.start.lng| < 1 / 1000000 ∧
      |ex.«end».lat - route.«end».lat| < 1 / 1000000 ∧
      |ex.«end».lng - route.«end».lng| < 1 / 1000000) :
    ∀ storeId, saveRoute savedRoutes persisted route storeId =
      { savedRoutes := savedRoutes
        persisted := persisted
        routeError := some ("A similar route already exists")
        routeSuccess := none } := by
  intro storeId
  have hd : isDuplicate savedRoutes (stripId route) = true := by
    obtain ⟨ex, hex, h1, h2, h3, h4⟩ := hdup
    simp only [isDuplicate, List.any_eq_true, Bool.and_eq_true, decide_eq_true_eq, stripId]
    exact ⟨ex, hex, ⟨⟨h1, h2⟩, h3⟩, h4⟩
  simp [saveRoute, hd]

/-- C2 witness: committing a copy of an already loaded route (coordinate
differences all zero) is rejected and changes nothing. -/
theorem duplicate_route_rejected_witness :
    saveRoute [sampleRoute] [] { sampleRoute with _id := none, color := "#FF0000" }
        ("store-id-2") =
      { savedRoutes := [sampleRoute]
        persisted := []
        routeError := some ("A similar route already exists")
        routeSuccess := none } :=
  duplicate_route_rejected [sampleRoute] []
    { sampleRoute with _id := none, color := "#FF0000" }
    ⟨sampleRoute, List.mem_cons_self sampleRoute [], by simp⟩ ("store-id-2")

/-- C4: the session-state store enforces the singleton invariant: saving a
new document while one exists is rejected with the schema error (leaving
the collection as it was, since an error performs no write), and any
successful `PUT /route-state` on a store holding at most one record leaves
at most one record. -/
theorem routeState_singleton (store : List RouteState) (doc : RouteState)
    (h : store ≠ []) :
    routeStateSave store doc true
      = Except.error ("Only one route state document can exist") ∧
    ∀ (body : RouteStatePutBody) (res : List RouteState),
      store.length ≤ 1 → putRouteState store body = Except.ok res →
        res.length ≤ 1 := by
  constructor
  · have hpos : 0 < store.length := List.length_pos.mpr h
    simp [routeStateSave, hpos]
  · intro body res hlen hput
    cases store with
    | nil => exact absurd rfl h
    | cons st rest =>
        simp only [putRouteState, routeStateSave, Bool.and_false, Bool.false_eq_true,
          if_false, Except.ok.injEq] at hput
        subst hput
        simp only [List.length_cons] at hlen ⊢
        omega

/-- C4 witness: a second create against a store already holding one
record is rejected, and a concrete PUT keeps the record count at one. -/
theorem routeState_singleton_witness :
    (routeStateSave [sampleState] sampleState true
      = Except.error ("Only one route state document can exist")) ∧
    ∀ (body : RouteStatePutBody) (res : List RouteState),
      [sampleState].length ≤ 1 → putRouteState [sampleState] body = Except.ok res →
        res.length ≤ 1 :=
  routeState_singleton [sampleState] sampleState (by decide)

/-- Reverting the optimistic recolor restores the original list, provided
every list entry sharing the selected identifier is the selected copy. -/
lemma recolor_revert_map (sel : SavedRoute) (color : String)
    (l : List SavedRoute) (h : ∀ r ∈ l, r._id = sel._id → r = sel) :
    (l.map fun route =>
        if route._id = sel._id then { sel with color := color } else route).map
      (fun route => if route._id = sel._id then sel else route) = l := by
  induction l with
  | nil => rfl
  | cons a t ih =>
      have ht := ih fun r hr hid => h r (List.mem_cons_of_mem a hr) hid
      by_cases hid : a._id = sel._id
      · have ha : a = sel := h a (List.mem_cons_self a t) hid
        simp [List.map_cons, hid, ht, ha]
      · simp [List.map_cons, hid, ht]

/-- C5: when the `PUT /routes/:id` behind a recolor fails, both the route
list entry and the selected-route copy are rolled back to their pre-update
values (the selected route and every list entry carrying its identifier
start out in sync), so the failed operation leaves the local color state
exactly as it was, with only the error message set. -/
theorem color_update_failure_rolls_back (savedRoutes : List SavedRoute)
    (sel : SavedRoute) (color : String)
    (h : ∀ r ∈ savedRoutes, r._id = sel._id → r = sel) :
    handleRouteColorChange savedRoutes (some sel) color (Except.error ()) =
      { savedRoutes := savedRoutes
        selectedRoute := some sel
        routeError := some ("Failed to update route color") } := by
  have hlist := recolor_revert_map sel color savedRoutes h
  simp only [handleRouteColorChange]
  rw [hlist]

/-- C5 witness: a failed recolor of the sample route held in a singleton
list reverts both copies. -/
theorem color_update_failure_rolls_back_witness :
    handleRouteColorChange [sampleRoute] (some sampleRoute) ("#FF0000")
        (Except.error ()) =
      { savedRoutes := [sampleRoute]
        selectedRoute := some sampleRoute
        routeError := some ("Failed to update route color") } :=
  color_update_failure_rolls_back [sampleRoute] sampleRoute ("#FF0000")
    (by simp)

/-- Selecting further points once a start location is stored never touches
the session record and appends each point, in order, to the waypoint
list. -/
lemma foldl_place_selection (s : LatLng) (ws : List LatLng) (b : BuildState)
    (hb : b.routeState.startLocation = some s) :
    (ws.foldl handlePlaceSelection b).routeState = b.routeState ∧
    (ws.foldl handlePlaceSelection b).routePoints.waypoints
      = b.routePoints.waypoints ++ ws := by
  induction ws generalizing b with
  | nil => simp
  | cons w rest ih =>
      have hstep : handlePlaceSelection b w =
          { routeState := b.routeState
            routePoints :=
              { b.routePoints with
                  «end» := some w
                  waypoints := b.routePoints.waypoints ++ [w] } } := by
        simp [handlePlaceSelection, hb]
      rw [List.foldl_cons, hstep]
      obtain ⟨h1, h2⟩ := ih
        { routeState := b.routeState
          routePoints :=
            { b.routePoints with
                «end» := some w
                waypoints := b.routePoints.waypoints ++ [w] } } hb
      refine ⟨h1, ?_⟩
      rw [h2]
      simp

/-- C1: a build that starts from a clean session record, picks `s` first
and then the points of `ws` in order, and is finished while the directions
collaborator succeeds, hands the store a route whose `start` is the first
chosen point, whose `end` is the last chosen point, and whose `waypoints`
are exactly the intermediate chosen points in selection order — and the
`POST /routes` handler persists those three fields unchanged. -/
theorem build_finish_start_end_waypoints (rs0 : RouteState)
    (h0 : rs0.startLocation = none) (s e : LatLng) (ws : List LatLng)
    (hlast : ws.getLast? = some e) (selectedColor : String)
    (res : DirectionsResult)
    (dir : DirectionsRequest → DirectionsStatus × Option DirectionsResult)
    (hdir : ∀ req, dir req = (DirectionsStatus.OK, some res)) :
    ∃ r : SavedRoute,
      handleFinishRoute (some (runBuild rs0 (s :: ws)).routeState)
          (runBuild rs0 (s :: ws)).routePoints selectedColor dir
        = FinishOutcome.saved r ∧
      r.start = s ∧ r.«end» = e ∧ r.waypoints = ws.dropLast ∧
      ∀ storeId,
        (postRoute r storeId).start = s ∧
        (postRoute r storeId).«end» = e ∧
        (postRoute r storeId).waypoints = ws.dropLast := by
  have hb1 : runBuild rs0 (s :: ws) = ws.foldl handlePlaceSelection
      { routeState :=
          { rs0 with routeStep := RouteStep.start, startLocation := some s }
        routePoints := { start := some s, «end» := none, waypoints := [] } } := by
    simp [runBuild, List.foldl_cons, handlePlaceSelection, h0]
  obtain ⟨h1, h2⟩ := foldl_place_selection s ws
    { routeState :=
        { rs0 with routeStep := RouteStep.start, startLocation := some s }
      routePoints := { start := some s, «end» := none, waypoints := [] } } rfl
  refine ⟨{ _id := none
            start := s
            «end» := e
            waypoints := ws.dropLast
            overviewPath := res.overview_path
            distance := res.distanceText.getD ("")
            duration := res.durationText.getD ("")
            color := rs0.color.getD selectedColor }, ?_, rfl, rfl, rfl,
    fun storeId => ⟨rfl, rfl, rfl⟩⟩
  rw [hb1, h1]
  simp only [handleFinishRoute, h2]
  simp [hlast, hdir, routePromise]

/-- A clean session record, as the lazily created initial state. -/
def cleanState : RouteState :=
  { routeStep := RouteStep.waypoint
    startLocation := none
    color := none }

/-- C1 witness: the build that picks (40, -82), then (40.5, -82.5), then
(41, -83) and finishes against a successful collaborator emits a route
with that start, that end, and the middle point as sole waypoint. -/
theorem build_finish_start_end_waypoints_witness :
    ∃ r : SavedRoute,
      handleFinishRoute (some (runBuild cleanState (pA :: [pB, pC])).routeState)
          (runBuild cleanState (pA :: [pB, pC])).routePoints ("#FF0000")
          (fun _ => (DirectionsStatus.OK, some sampleResult))
        = FinishOutcome.saved r ∧
      r.start = pA ∧ r.«end» = pC ∧ r.waypoints = [pB, pC].dropLast ∧
      ∀ storeId,
        (postRoute r storeId).start = pA ∧
        (postRoute r storeId).«end» = pC ∧
        (postRoute r storeId).waypoints = [pB, pC].dropLast :=
  build_finish_start_end_waypoints cleanState rfl pA pC [pB, pC] rfl
    ("#FF0000") sampleResult (fun _ => (DirectionsStatus.OK, some sampleResult))
    (fun _ => rfl)

end TripTracker
